import Mathlib

/-!
Shallow embedding of the Limon restaurant backend (src/server.py): the data
model (categories, menu items, the singleton settings document with its
data_version counter) and the admin/public endpoints the specification's
claims are about.  MongoDB documents are modelled as Lean structures; the
collections as lists; `update_one` as first-match update; `delete_one` as
first-match erase; `delete_many` and `find` as filters; the `$inc` upsert used
for the data-version bump keeps Mongo's semantics (a missing field counts as 0,
an absent document is created with the field set to the increment).
Identifiers (Mongo ObjectIds) are opaque strings; timestamps are naturals
passed in by the caller, since `datetime.utcnow()` is ambient.
-/

/-- HTTP error outcomes raised by the endpoints: 400 "No data to update" and
404 "... not found". -/
inductive ApiError where
  | invalidArgument
  | notFound
  deriving DecidableEq, Repr

/-- Mongo `$set` of a possibly-present payload field onto a possibly-present
document field: a provided value overwrites, an absent one leaves the stored
value (present or not) untouched. -/
def setOpt {α : Type} (u : Option α) (d : Option α) : Option α :=
  match u with
  | some v => some v
  | none => d

/-- Python truthiness of an `Optional[str]` parameter (`if category_id:`):
`None` and the empty string are falsy. -/
def truthyStr (s : Option String) : Bool :=
  match s with
  | none => false
  | some v => !v.isEmpty

/-- Python truthiness of an `Optional[bool]` parameter (`if published_only:`). -/
def truthyBool (b : Option Bool) : Bool :=
  match b with
  | none => false
  | some v => v

/-- A stored category document (fields written by `create_category`, plus the
`updated_at` stamp added on update). -/
structure CategoryDoc where
  id : String
  name : String
  name_ar : String
  slug : String
  image : String
  order : Int
  created_at : Nat
  updated_at : Option Nat
  deriving DecidableEq, Repr

/-- Request body of `POST /api/categories` (pydantic `CategoryCreate`;
`name_ar` defaults to `""`, `order` to 0). -/
structure CategoryCreate where
  name : String
  name_ar : String := ""
  slug : String
  image : String
  order : Int := 0
  deriving DecidableEq, Repr

/-- Request body of `PUT /api/categories/{id}` (pydantic `CategoryUpdate`,
all fields optional). -/
structure CategoryUpdate where
  name : Option String := none
  name_ar : Option String := none
  slug : Option String := none
  image : Option String := none
  order : Option Int := none
  deriving DecidableEq, Repr

/-- `update_data = {k: v for k, v in data.dict().items() if v is not None}`
is empty. -/
def CategoryUpdate.isEmpty (u : CategoryUpdate) : Bool :=
  u.name.isNone && u.name_ar.isNone && u.slug.isNone && u.image.isNone &&
    u.order.isNone

/-- A stored menu item document.  `order` is absent on freshly created items
(`MenuItemCreate` has no order field); `is_published` may be absent on legacy
documents.  Prices are stored exactly (ℚ stands in for the JSON number; the
code never computes with it). -/
structure MenuItemDoc where
  id : String
  title : String
  title_ar : String
  description : String
  description_ar : String
  price : Rat
  image : String
  category_id : String
  order : Option Int
  is_published : Option Bool
  created_at : Nat
  updated_at : Option Nat
  deriving DecidableEq, Repr

/-- Request body of `POST /api/menu-items` (pydantic `MenuItemCreate`;
`title_ar` defaults to `""`, `is_published` to `True`). -/
structure MenuItemCreate where
  title : String
  title_ar : String := ""
  description : String
  description_ar : String := ""
  price : Rat
  image : String
  category_id : String
  is_published : Bool := true
  deriving DecidableEq, Repr

/-- Request body of `PUT /api/menu-items/{id}` (pydantic `MenuItemUpdate`,
all fields optional). -/
structure MenuItemUpdate where
  title : Option String := none
  title_ar : Option String := none
  description : Option String := none
  description_ar : Option String := none
  price : Option Rat := none
  image : Option String := none
  category_id : Option String := none
  order : Option Int := none
  is_published : Option Bool := none
  deriving DecidableEq, Repr

/-- The non-null-field payload of a menu-item update is empty. -/
def MenuItemUpdate.isEmpty (u : MenuItemUpdate) : Bool :=
  u.title.isNone && u.title_ar.isNone && u.description.isNone &&
    u.description_ar.isNone && u.price.isNone && u.image.isNone &&
    u.category_id.isNone && u.order.isNone && u.is_published.isNone

/-- The singleton settings document.  Mongo documents are schema-free, so every
field (the pydantic `SettingsUpdate` fields plus the `updated_at` stamp) is
optional; in particular `data_version` may be absent. -/
structure SettingsDoc where
  company_name : Option String := none
  company_name_ar : Option String := none
  company_subtitle : Option String := none
  company_subtitle_ar : Option String := none
  title_font : Option String := none
  subtitle_font : Option String := none
  bg_color : Option String := none
  text_color : Option String := none
  hero_video : Option String := none
  hero_image : Option String := none
  phone : Option String := none
  address : Option String := none
  address_ar : Option String := none
  opening_hours : Option String := none
  opening_hours_ar : Option String := none
  instagram : Option String := none
  google_maps : Option String := none
  about_story : Option String := none
  about_story_ar : Option String := none
  about_mission : Option String := none
  about_mission_ar : Option String := none
  about_vision : Option String := none
  about_vision_ar : Option String := none
  default_language : Option String := none
  restaurant_email : Option String := none
  enable_favorites : Option Bool := none
  enable_cart : Option Bool := none
  enable_menu : Option Bool := none
  data_version : Option Int := none
  updated_at : Option Nat := none
  deriving DecidableEq, Repr

/-- Request body of `PUT /api/settings` (pydantic `SettingsUpdate`, all fields
optional — including `data_version`, exposed "for sync"). -/
structure SettingsUpdate where
  company_name : Option String := none
  company_name_ar : Option String := none
  company_subtitle : Option String := none
  company_subtitle_ar : Option String := none
  title_font : Option String := none
  subtitle_font : Option String := none
  bg_color : Option String := none
  text_color : Option String := none
  hero_video : Option String := none
  hero_image : Option String := none
  phone : Option String := none
  address : Option String := none
  address_ar : Option String := none
  opening_hours : Option String := none
  opening_hours_ar : Option String := none
  instagram : Option String := none
  google_maps : Option String := none
  about_story : Option String := none
  about_story_ar : Option String := none
  about_mission : Option String := none
  about_mission_ar : Option String := none
  about_vision : Option String := none
  about_vision_ar : Option String := none
  default_language : Option String := none
  restaurant_email : Option String := none
  enable_favorites : Option Bool := none
  enable_cart : Option Bool := none
  enable_menu : Option Bool := none
  data_version : Option Int := none
  deriving DecidableEq, Repr

/-- The non-null-field payload of a settings update is empty. -/
def SettingsUpdate.isEmpty (u : SettingsUpdate) : Bool :=
  u.company_name.isNone && u.company_name_ar.isNone &&
    u.company_subtitle.isNone && u.company_subtitle_ar.isNone &&
    u.title_font.isNone && u.subtitle_font.isNone && u.bg_color.isNone &&
    u.text_color.isNone && u.hero_video.isNone && u.hero_image.isNone &&
    u.phone.isNone && u.address.isNone && u.address_ar.isNone &&
    u.opening_hours.isNone && u.opening_hours_ar.isNone &&
    u.instagram.isNone && u.google_maps.isNone && u.about_story.isNone &&
    u.about_story_ar.isNone && u.about_mission.isNone &&
    u.about_mission_ar.isNone && u.about_vision.isNone &&
    u.about_vision_ar.isNone && u.default_language.isNone &&
    u.restaurant_email.isNone && u.enable_favorites.isNone &&
    u.enable_cart.isNone && u.enable_menu.isNone && u.data_version.isNone

/-- The database: the three collections the version-sync claims involve.  The
settings collection is kept as at most one document (the singleton invariant;
every access in the code goes through `find_one()` / `update_one({}, …)`). -/
structure DB where
  categories : List CategoryDoc
  menu_items : List MenuItemDoc
  settings : Option SettingsDoc
  deriving DecidableEq, Repr

/-- Mongo `update_one(filter, {"$set": …})`: modify the first matching
document, leave the rest of the collection alone. -/
def updateFirstBy {α : Type} (p : α → Bool) (f : α → α) : List α → List α
  | [] => []
  | x :: xs => if p x then f x :: xs else x :: updateFirstBy p f xs

/-- Mongo ascending sort key comparison on the `order` field: a document
missing the field sorts before every numeric value (Mongo treats the missing
field as null, and null precedes numbers in ascending order). -/
def keyLe (a b : Option Int) : Bool :=
  match a, b with
  | none, _ => true
  | some _, none => false
  | some x, some y => x ≤ y

/-- Sort relation of `db.menu_items.find(query).sort("order", 1)`. -/
def itemLe (a b : MenuItemDoc) : Prop :=
  keyLe a.order b.order = true

instance : DecidableRel itemLe := fun _ _ => instDecidableEqBool _ _

/-- Sort relation of `db.categories.find().sort("order", 1)`. -/
def catLe (a b : CategoryDoc) : Prop :=
  (a.order ≤ b.order : Prop)

instance : DecidableRel catLe := fun _ _ => Int.decLe _ _

/-- `db.settings.update_one({}, {"$inc": {"data_version": 1}}, upsert=True)`:
with no document present, upsert creates one holding only the incremented
field (set to 1, since `$inc` treats the missing field as 0); with a document
present, `data_version` becomes its old value (0 if absent) plus 1. -/
def bumpSettings (s : Option SettingsDoc) : SettingsDoc :=
  match s with
  | none => { data_version := some 1 }
  | some d => { d with data_version := some (d.data_version.getD 0 + 1) }

/-- `bump` applied at the database level. -/
def bumpDB (db : DB) : DB :=
  { db with settings := some (bumpSettings db.settings) }

/-- `GET /api/categories`: all categories sorted ascending by `order`. -/
def get_categories (db : DB) : List CategoryDoc :=
  List.insertionSort catLe db.categories

/-- `POST /api/categories` (`create_category`): inserts the document with a
creation stamp and returns it.  Faithful to the source: this handler does NOT
touch `data_version`. -/
def create_category (db : DB) (data : CategoryCreate) (now : Nat)
    (freshId : String) : DB × CategoryDoc :=
  let category : CategoryDoc :=
    { id := freshId, name := data.name, name_ar := data.name_ar,
      slug := data.slug, image := data.image, order := data.order,
      created_at := now, updated_at := none }
  ({ db with categories := db.categories ++ [category] }, category)

/-- `$set` of the non-null `CategoryUpdate` fields plus the `updated_at`
stamp. -/
def applyCategoryUpdate (d : CategoryDoc) (u : CategoryUpdate) (now : Nat) :
    CategoryDoc :=
  { d with
    name := u.name.getD d.name
    name_ar := u.name_ar.getD d.name_ar
    slug := u.slug.getD d.slug
    image := u.image.getD d.image
    order := u.order.getD d.order
    updated_at := some now }

/-- `PUT /api/categories/{id}` (`update_category`): 400 on an all-null
payload; `$set` on the first `_id` match; 404 when nothing matched; then the
data-version bump; returns the re-fetched document. -/
def update_category (db : DB) (category_id : String) (data : CategoryUpdate)
    (now : Nat) : DB × Except ApiError (Option CategoryDoc) :=
  if data.isEmpty then (db, .error .invalidArgument)
  else
    let matched := db.categories.any (fun d => d.id = category_id)
    let categories := updateFirstBy (fun d => d.id = category_id)
      (fun d => applyCategoryUpdate d data now) db.categories
    if !matched then (db, .error .notFound)
    else
      let db := bumpDB { db with categories := categories }
      (db, .ok (db.categories.find? (fun d => d.id = category_id)))

/-- `DELETE /api/categories/{id}` (`delete_category`): first
`delete_many({"category_id": id})` on menu items, then `delete_one` on the
category; 404 when the category did not exist (the cascade has already run by
then).  Faithful to the source: no data-version bump. -/
def delete_category (db : DB) (category_id : String) :
    DB × Except ApiError Unit :=
  let menu_items := db.menu_items.filter (fun i => !(i.category_id = category_id : Bool))
  let deleted := db.categories.any (fun d => d.id = category_id)
  let categories := db.categories.eraseP (fun d => d.id = category_id)
  let db := { db with menu_items := menu_items, categories := categories }
  if !deleted then (db, .error .notFound) else (db, .ok ())

/-- The query dict assembled by `get_menu_items`: `category_id` is added under
Python truthiness (so `None` and `""` add nothing), and the
`{"$ne": False}` clause on `is_published` only when `published_only` is
truthy. -/
structure MenuQuery where
  category_id : Option String
  is_published_ne_false : Bool
  deriving DecidableEq, Repr

def buildMenuQuery (category_id : Option String) (published_only : Option Bool) :
    MenuQuery :=
  let q : MenuQuery := ⟨none, false⟩
  let q := if truthyStr category_id then { q with category_id := category_id } else q
  let q := if truthyBool published_only then { q with is_published_ne_false := true } else q
  q

def matchesMenuQuery (q : MenuQuery) (i : MenuItemDoc) : Bool :=
  (match q.category_id with
   | some c => i.category_id = c
   | none => true) &&
  (if q.is_published_ne_false then !(i.is_published = some false : Bool) else true)

/-- `GET /api/menu-items`: filter by the assembled query, sort ascending by
`order`. -/
def get_menu_items (db : DB) (category_id : Option String)
    (published_only : Option Bool) : List MenuItemDoc :=
  List.insertionSort itemLe
    (db.menu_items.filter (matchesMenuQuery (buildMenuQuery category_id published_only)))

/-- `GET /api/menu-items/{id}`: `find_one({"_id": …})`, 404 when absent. -/
def get_menu_item (db : DB) (item_id : String) : Except ApiError MenuItemDoc :=
  match db.menu_items.find? (fun i => i.id = item_id) with
  | some i => .ok i
  | none => .error .notFound

/-- `POST /api/menu-items` (`create_menu_item`): insert with a creation stamp,
then bump the data version. -/
def create_menu_item (db : DB) (data : MenuItemCreate) (now : Nat)
    (freshId : String) : DB × MenuItemDoc :=
  let item : MenuItemDoc :=
    { id := freshId, title := data.title, title_ar := data.title_ar,
      description := data.description, description_ar := data.description_ar,
      price := data.price, image := data.image,
      category_id := data.category_id, order := none,
      is_published := some data.is_published, created_at := now,
      updated_at := none }
  (bumpDB { db with menu_items := db.menu_items ++ [item] }, item)

/-- `$set` of the non-null `MenuItemUpdate` fields plus the `updated_at`
stamp. -/
def applyMenuItemUpdate (d : MenuItemDoc) (u : MenuItemUpdate) (now : Nat) :
    MenuItemDoc :=
  { d with
    title := u.title.getD d.title
    title_ar := u.title_ar.getD d.title_ar
    description := u.description.getD d.description
    description_ar := u.description_ar.getD d.description_ar
    price := u.price.getD d.price
    image := u.image.getD d.image
    category_id := u.category_id.getD d.category_id
    order := setOpt u.order d.order
    is_published := setOpt u.is_published d.is_published
    updated_at := some now }

/-- `PUT /api/menu-items/{id}` (`update_menu_item`): 400 on an all-null
payload; `$set` on the first `_id` match; 404 when nothing matched; bump;
return the re-fetched document. -/
def update_menu_item (db : DB) (item_id : String) (data : MenuItemUpdate)
    (now : Nat) : DB × Except ApiError (Option MenuItemDoc) :=
  if data.isEmpty then (db, .error .invalidArgument)
  else
    let matched := db.menu_items.any (fun i => i.id = item_id)
    let menu_items := updateFirstBy (fun i => i.id = item_id)
      (fun i => applyMenuItemUpdate i data now) db.menu_items
    if !matched then (db, .error .notFound)
    else
      let db := bumpDB { db with menu_items := menu_items }
      (db, .ok (db.menu_items.find? (fun i => i.id = item_id)))

/-- `DELETE /api/menu-items/{id}` (`delete_menu_item`): `delete_one`, 404 when
nothing was deleted, bump otherwise. -/
def delete_menu_item (db : DB) (item_id : String) : DB × Except ApiError Unit :=
  let deleted := db.menu_items.any (fun i => i.id = item_id)
  let menu_items := db.menu_items.eraseP (fun i => i.id = item_id)
  if !deleted then (db, .error .notFound)
  else (bumpDB { db with menu_items := menu_items }, .ok ())

/-- `PUT /api/menu-items/{id}/toggle-publish` (`toggle_publish_menu_item`):
404 when the item is absent; otherwise flip
`item.get("is_published", True)`, `$set` the new flag and the update stamp,
bump, and return the new flag. -/
def toggle_publish_menu_item (db : DB) (item_id : String) (now : Nat) :
    DB × Except ApiError Bool :=
  match db.menu_items.find? (fun i => i.id = item_id) with
  | none => (db, .error .notFound)
  | some item =>
      let new_status := !(item.is_published.getD true)
      let menu_items := updateFirstBy (fun i => i.id = item_id)
        (fun i => { i with is_published := some new_status,
                           updated_at := some now }) db.menu_items
      (bumpDB { db with menu_items := menu_items }, .ok new_status)

/-- One entry of a reorder batch (`{"id": …, "order": …}`). -/
structure ReorderEntry where
  id : String
  order : Int
  deriving DecidableEq, Repr

/-- `POST /api/categories/reorder` (`reorder_categories`): one `update_one`
`$set {"order": …}` per entry (a non-matching id updates nothing and raises
no error), then a single bump. -/
def reorder_categories (db : DB) (orders : List ReorderEntry) : DB :=
  let categories := orders.foldl
    (fun cats e => updateFirstBy (fun d => d.id = e.id)
      (fun d => { d with order := e.order }) cats)
    db.categories
  bumpDB { db with categories := categories }

/-- `POST /api/menu-items/reorder` (`reorder_menu_items`): same shape over the
menu-items collection (`$set` stores the order as a present field). -/
def reorder_menu_items (db : DB) (orders : List ReorderEntry) : DB :=
  let menu_items := orders.foldl
    (fun items e => updateFirstBy (fun i => i.id = e.id)
      (fun i => { i with order := some e.order }) items)
    db.menu_items
  bumpDB { db with menu_items := menu_items }

/-- `GET /api/settings`: the singleton document, `{}` when absent. -/
def get_settings (db : DB) : Option SettingsDoc :=
  db.settings

/-- `$set` of the non-null `SettingsUpdate` fields plus the `updated_at`
stamp onto a settings document. -/
def applySettingsUpdate (d : SettingsDoc) (u : SettingsUpdate) (now : Nat) :
    SettingsDoc :=
  { company_name := setOpt u.company_name d.company_name
    company_name_ar := setOpt u.company_name_ar d.company_name_ar
    company_subtitle := setOpt u.company_subtitle d.company_subtitle
    company_subtitle_ar := setOpt u.company_subtitle_ar d.company_subtitle_ar
    title_font := setOpt u.title_font d.title_font
    subtitle_font := setOpt u.subtitle_font d.subtitle_font
    bg_color := setOpt u.bg_color d.bg_color
    text_color := setOpt u.text_color d.text_color
    hero_video := setOpt u.hero_video d.hero_video
    hero_image := setOpt u.hero_image d.hero_image
    phone := setOpt u.phone d.phone
    address := setOpt u.address d.address
    address_ar := setOpt u.address_ar d.address_ar
    opening_hours := setOpt u.opening_hours d.opening_hours
    opening_hours_ar := setOpt u.opening_hours_ar d.opening_hours_ar
    instagram := setOpt u.instagram d.instagram
    google_maps := setOpt u.google_maps d.google_maps
    about_story := setOpt u.about_story d.about_story
    about_story_ar := setOpt u.about_story_ar d.about_story_ar
    about_mission := setOpt u.about_mission d.about_mission
    about_mission_ar := setOpt u.about_mission_ar d.about_mission_ar
    about_vision := setOpt u.about_vision d.about_vision
    about_vision_ar := setOpt u.about_vision_ar d.about_vision_ar
    default_language := setOpt u.default_language d.default_language
    restaurant_email := setOpt u.restaurant_email d.restaurant_email
    enable_favorites := setOpt u.enable_favorites d.enable_favorites
    enable_cart := setOpt u.enable_cart d.enable_cart
    enable_menu := setOpt u.enable_menu d.enable_menu
    data_version := setOpt u.data_version d.data_version
    updated_at := some now }

/-- `PUT /api/settings` (`update_settings`): 400 on an all-null payload;
upsert-`$set` of the provided fields (creating the singleton from an empty
document when absent); then the data-version bump; returns the re-fetched
document. -/
def update_settings (db : DB) (data : SettingsUpdate) (now : Nat) :
    DB × Except ApiError SettingsDoc :=
  if data.isEmpty then (db, .error .invalidArgument)
  else
    let base : SettingsDoc := (db.settings).getD {}
    let merged := applySettingsUpdate base data now
    let final := bumpSettings (some merged)
    ({ db with settings := some final }, .ok final)

/-- The response of `GET /api/public/data`. -/
structure PublicData where
  settings : Option SettingsDoc
  categories : List CategoryDoc
  items : List MenuItemDoc
  dataVersion : Int
  lastUpdated : Nat
  deriving DecidableEq, Repr

/-- `GET /api/public/data` (`get_public_data`): settings, ordered categories,
ordered items, and `settings.get("data_version", 1) if settings else 1`. -/
def get_public_data (db : DB) (now : Nat) : PublicData :=
  { settings := db.settings
    categories := List.insertionSort catLe db.categories
    items := List.insertionSort itemLe db.menu_items
    dataVersion := match db.settings with
      | some s => s.data_version.getD 1
      | none => 1
    lastUpdated := now }

/-- `GET /api/public/version` (`get_data_version`): the cheap
`settings.get("data_version", 1) if settings else 1` probe. -/
def get_data_version (db : DB) : Int :=
  match db.settings with
  | some s => s.data_version.getD 1
  | none => 1

/-- Modelled from the spec: the repository exposes no
`GET /api/categories/{id}` route, so "fetching category C" has no handler in
src/server.py; the spec's uniform entity contract ("fails with NotFound if no
entity with id exists", and the testable property `get(C) == NotFound`) is
modelled the way every single-entity fetch in the code works:
`find_one({"_id": id})` with a 404 when nothing matches. -/
def get_category (db : DB) (category_id : String) : Except ApiError CategoryDoc :=
  match db.categories.find? (fun d => d.id = category_id) with
  | some d => .ok d
  | none => .error .notFound

/-- One state-changing call of the admin surface for categories, menu items
and settings — exactly the handlers of src/server.py that write to any of the
three collections of `DB`.  The remaining routes (auth, uploads, orders,
contact messages, and all GET endpoints) never write the categories,
menu-items or settings collections, so they act as the identity on `DB`. -/
inductive ApiOp where
  | createCategory (data : CategoryCreate) (now : Nat) (freshId : String)
  | updateCategory (id : String) (data : CategoryUpdate) (now : Nat)
  | deleteCategory (id : String)
  | createMenuItem (data : MenuItemCreate) (now : Nat) (freshId : String)
  | updateMenuItem (id : String) (data : MenuItemUpdate) (now : Nat)
  | deleteMenuItem (id : String)
  | togglePublish (id : String) (now : Nat)
  | reorderCategories (orders : List ReorderEntry)
  | reorderMenuItems (orders : List ReorderEntry)
  | updateSettings (data : SettingsUpdate) (now : Nat)
  deriving DecidableEq, Repr

/-- The database after one call (the HTTP response is projected away; a
handler that raises leaves behind whatever writes it performed first). -/
def stepDB (db : DB) : ApiOp → DB
  | .createCategory data now freshId => (create_category db data now freshId).1
  | .updateCategory id data now => (update_category db id data now).1
  | .deleteCategory id => (delete_category db id).1
  | .createMenuItem data now freshId => (create_menu_item db data now freshId).1
  | .updateMenuItem id data now => (update_menu_item db id data now).1
  | .deleteMenuItem id => (delete_menu_item db id).1
  | .togglePublish id now => (toggle_publish_menu_item db id now).1
  | .reorderCategories orders => reorder_categories db orders
  | .reorderMenuItems orders => reorder_menu_items db orders
  | .updateSettings data now => (update_settings db data now).1

/-- A sequence of calls. -/
def runOps (db : DB) (ops : List ApiOp) : DB :=
  ops.foldl stepDB db

/-- The call does not carry a client-chosen `data_version` value: every call
except a `PUT /api/settings` whose payload sets the `data_version` field. -/
def noVersionOverride : ApiOp → Prop
  | .updateSettings data _ => data.data_version = none
  | _ => True

/-! ### List-level helper lemmas -/

theorem updateFirstBy_append {α : Type} (p : α → Bool) (f : α → α)
    (pre : List α) (d : α) (post : List α)
    (hpre : ∀ x ∈ pre, p x = false) (hd : p d = true) :
    updateFirstBy p f (pre ++ d :: post) = pre ++ f d :: post := by
  induction pre with
  | nil => simp [updateFirstBy, hd]
  | cons a l ih =>
      have ha : p a = false := hpre a (List.mem_cons_self a l)
      simp [updateFirstBy, ha,
        ih (fun x hx => hpre x (List.mem_cons_of_mem a hx))]

theorem find?_middle {α : Type} (p : α → Bool) (pre : List α) (d : α)
    (post : List α) (hpre : ∀ x ∈ pre, p x = false) (hd : p d = true) :
    (pre ++ d :: post).find? p = some d := by
  rw [List.find?_append]
  have h1 : pre.find? p = none :=
    List.find?_eq_none.mpr (fun x hx => by simp [hpre x hx])
  simp [h1, hd]

theorem any_middle {α : Type} (p : α → Bool) (pre : List α) (d : α)
    (post : List α) (hd : p d = true) : (pre ++ d :: post).any p = true := by
  simp [hd]

theorem countP_le_one_of_nodup_ids {α : Type} (idOf : α → String) (i : String) :
    ∀ l : List α, (l.map idOf).Nodup →
      List.countP (fun d => (idOf d = i : Bool)) l ≤ 1 := by
  intro l
  induction l with
  | nil => intro _; simp
  | cons a t ih =>
      intro h
      rw [List.map_cons, List.nodup_cons] at h
      by_cases hai : idOf a = i
      · have ht : List.countP (fun d => (idOf d = i : Bool)) t = 0 := by
          rw [List.countP_eq_zero]
          intro x hx hpx
          have hxi : idOf x = i := by simpa using hpx
          exact h.1 (by rw [hai, ← hxi]; exact List.mem_map_of_mem idOf hx)
        rw [List.countP_cons_of_pos _ _ (by simpa using hai), ht]
      · rw [List.countP_cons_of_neg _ _ (by simpa using hai)]
        exact ih h.2

theorem updateFirstBy_eq_map {α : Type} (p : α → Bool) (g : α → α) :
    ∀ l : List α, List.countP p l ≤ 1 →
      updateFirstBy p g l = l.map (fun d => if p d then g d else d) := by
  intro l
  induction l with
  | nil => intro _; rfl
  | cons a t ih =>
      intro h
      by_cases hpa : p a = true
      · rw [List.countP_cons_of_pos _ _ hpa] at h
        have ht : List.countP p t = 0 := by omega
        have hall : ∀ x ∈ t, p x = false := by
          intro x hx
          have := List.countP_eq_zero.mp ht x hx
          simpa using this
        have hmap : t.map (fun d => if p d then g d else d) = t := by
          have h1 : t.map (fun d => if p d then g d else d) = t.map (fun d => d) :=
            List.map_congr_left (fun x hx => by simp [hall x hx])
          rw [h1, List.map_id']
        simp [updateFirstBy, hpa, hmap]
      · have hpa' : p a = false := by simpa using hpa
        rw [List.countP_cons_of_neg _ _ (by simp [hpa'])] at h
        simp [updateFirstBy, hpa', ih h]

/-- The cumulative effect of a reorder batch on a single document: the
sequential per-entry `$set` updates, restricted to that document. -/
def applyBatch {α : Type} (idOf : α → String) (setO : Int → α → α)
    (b : List ReorderEntry) (d : α) : α :=
  b.foldl (fun d e => if idOf d = e.id then setO e.order d else d) d

theorem applyBatch_skip {α : Type} (idOf : α → String) (setO : Int → α → α) :
    ∀ (b : List ReorderEntry) (d : α), (∀ e ∈ b, idOf d ≠ e.id) →
      applyBatch idOf setO b d = d := by
  intro b
  induction b with
  | nil => intro d _; rfl
  | cons e rest ih =>
      intro d h
      have he : idOf d ≠ e.id := h e (List.mem_cons_self e rest)
      have h1 : applyBatch idOf setO (e :: rest) d
          = applyBatch idOf setO rest (if idOf d = e.id then setO e.order d else d) := rfl
      rw [h1, if_neg he]
      exact ih d (fun f hf => h f (List.mem_cons_of_mem e hf))

theorem applyBatch_hit {α : Type} (idOf : α → String) (setO : Int → α → α)
    (hid : ∀ o d, idOf (setO o d) = idOf d) :
    ∀ (b : List ReorderEntry) (d : α) (e : ReorderEntry), e ∈ b →
      (b.map ReorderEntry.id).Nodup → idOf d = e.id →
      applyBatch idOf setO b d = setO e.order d := by
  intro b
  induction b with
  | nil => intro d e he _ _; cases he
  | cons f rest ih =>
      intro d e he hnd hde
      rw [List.map_cons, List.nodup_cons] at hnd
      rcases List.mem_cons.mp he with hef | hmem
      · subst hef
        have h1 : applyBatch idOf setO (e :: rest) d
            = applyBatch idOf setO rest (if idOf d = e.id then setO e.order d else d) := rfl
        rw [h1, if_pos hde]
        apply applyBatch_skip
        intro g hg
        rw [hid, hde]
        intro hcontra
        exact hnd.1 (by rw [hcontra]; exact List.mem_map_of_mem ReorderEntry.id hg)
      · have hef : f.id ≠ e.id := by
          intro hc
          exact hnd.1 (by rw [hc]; exact List.mem_map_of_mem ReorderEntry.id hmem)
        have h1 : applyBatch idOf setO (f :: rest) d
            = applyBatch idOf setO rest (if idOf d = f.id then setO f.order d else d) := rfl
        rw [h1, if_neg (by rw [hde]; exact fun hc => hef hc.symm)]
        exact ih d e hmem hnd.2 hde

theorem reorderFold_eq_map {α : Type} (idOf : α → String) (setO : Int → α → α)
    (hid : ∀ o d, idOf (setO o d) = idOf d) :
    ∀ (b : List ReorderEntry) (l : List α), (l.map idOf).Nodup →
      b.foldl (fun acc e =>
        updateFirstBy (fun d => (idOf d = e.id : Bool)) (setO e.order) acc) l
        = l.map (applyBatch idOf setO b) := by
  intro b
  induction b with
  | nil =>
      intro l _
      have h1 : l.map (applyBatch idOf setO []) = l.map (fun d => d) :=
        List.map_congr_left (fun d _ => rfl)
      rw [List.foldl_nil, h1, List.map_id']
  | cons e rest ih =>
      intro l hl
      rw [List.foldl_cons,
        updateFirstBy_eq_map _ _ l (countP_le_one_of_nodup_ids idOf e.id l hl)]
      have hl2 : ((l.map (fun d => if (idOf d = e.id : Bool) then setO e.order d else d)).map idOf).Nodup := by
        rw [List.map_map]
        have hcomp : (idOf ∘ fun d => if (idOf d = e.id : Bool) then setO e.order d else d) = idOf := by
          funext d
          by_cases h : idOf d = e.id <;> simp [h, hid]
        rw [hcomp]
        exact hl
      rw [ih _ hl2, List.map_map]
      apply List.map_congr_left
      intro d _
      by_cases h : idOf d = e.id <;>
        simp [applyBatch, Function.comp, h]

/-! ### The sort relations are total and transitive -/

theorem keyLe_total (a b : Option Int) : keyLe a b = true ∨ keyLe b a = true := by
  cases a <;> cases b <;> simp [keyLe]
  all_goals omega

theorem keyLe_trans (a b c : Option Int) (hab : keyLe a b = true)
    (hbc : keyLe b c = true) : keyLe a c = true := by
  cases a <;> cases b <;> cases c <;> simp [keyLe] at *
  all_goals omega

instance : IsTotal MenuItemDoc itemLe :=
  ⟨fun a b => keyLe_total a.order b.order⟩

instance : IsTrans MenuItemDoc itemLe :=
  ⟨fun a b c hab hbc => keyLe_trans a.order b.order c.order hab hbc⟩

instance : IsTotal CategoryDoc catLe :=
  ⟨fun a b => Int.le_total a.order b.order⟩

instance : IsTrans CategoryDoc catLe :=
  ⟨fun _ _ _ hab hbc => le_trans hab hbc⟩

/-! ### Data-version arithmetic of the bump -/

theorem get_data_version_bumpDB (db : DB) :
    get_data_version db ≤ get_data_version (bumpDB db) := by
  unfold get_data_version bumpDB bumpSettings
  cases db.settings with
  | none => simp
  | some s =>
      cases h : s.data_version with
      | none => simp [h]
      | some v => simp [h]

theorem settings_create_category (db : DB) (data : CategoryCreate) (now : Nat)
    (freshId : String) : (create_category db data now freshId).1.settings = db.settings := rfl

theorem settings_delete_category (db : DB) (category_id : String) :
    (delete_category db category_id).1.settings = db.settings := by
  simp only [delete_category]
  split <;> rfl

theorem stepDB_mono (db : DB) (op : ApiOp) (h : noVersionOverride op) :
    get_data_version db ≤ get_data_version (stepDB db op) := by
  cases op with
  | createCategory data now freshId =>
      rw [show stepDB db (.createCategory data now freshId)
        = (create_category db data now freshId).1 from rfl]
      unfold get_data_version
      rw [settings_create_category]
  | deleteCategory id =>
      rw [show stepDB db (.deleteCategory id) = (delete_category db id).1 from rfl]
      unfold get_data_version
      rw [settings_delete_category]
  | updateCategory id data now =>
      simp only [stepDB, update_category]
      split
      · exact le_refl _
      · split
        · exact le_refl _
        · exact get_data_version_bumpDB _
  | createMenuItem data now freshId =>
      simp only [stepDB, create_menu_item]
      exact get_data_version_bumpDB _
  | updateMenuItem id data now =>
      simp only [stepDB, update_menu_item]
      split
      · exact le_refl _
      · split
        · exact le_refl _
        · exact get_data_version_bumpDB _
  | deleteMenuItem id =>
      simp only [stepDB, delete_menu_item]
      split
      · exact le_refl _
      · exact get_data_version_bumpDB _
  | togglePublish id now =>
      simp only [stepDB, toggle_publish_menu_item]
      split
      · exact le_refl _
      · exact get_data_version_bumpDB _
  | reorderCategories orders =>
      simp only [stepDB, reorder_categories]
      exact get_data_version_bumpDB _
  | reorderMenuItems orders =>
      simp only [stepDB, reorder_menu_items]
      exact get_data_version_bumpDB _
  | updateSettings data now =>
      have hdv : data.data_version = none := h
      simp only [stepDB, update_settings]
      split
      · exact le_refl _
      · have hkeep : (applySettingsUpdate ((db.settings).getD {}) data now).data_version
            = ((db.settings).getD {}).data_version := by
          simp [applySettingsUpdate, setOpt, hdv]
        unfold get_data_version bumpSettings
        simp only [hkeep]
        cases hs : db.settings with
        | none => simp
        | some s =>
            cases hv : s.data_version with
            | none => simp [hv]
            | some v => simp [hv]

/-! ### Concrete fixtures -/

def settingsV3 : SettingsDoc := { data_version := some 3 }

def settingsV5 : SettingsDoc := { data_version := some 5 }

def catGrill : CategoryDoc :=
  { id := "cat1", name := "Grill", name_ar := "", slug := "grill",
    image := "grill.jpg", order := 1, created_at := 0, updated_at := none }

def itemKebab : MenuItemDoc :=
  { id := "it1", title := "Kebab", title_ar := "", description := "skewer",
    description_ar := "", price := 45, image := "kebab.jpg",
    category_id := "cat1", order := some 2, is_published := none,
    created_at := 0, updated_at := none }

def itemAyran : MenuItemDoc :=
  { id := "it2", title := "Ayran", title_ar := "", description := "yogurt drink",
    description_ar := "", price := 8, image := "ayran.jpg",
    category_id := "cat1", order := some 1, is_published := some true,
    created_at := 0, updated_at := none }

def itemGhost : MenuItemDoc :=
  { id := "it9", title := "Orphan", title_ar := "", description := "stale",
    description_ar := "", price := 1, image := "orphan.jpg",
    category_id := "ghost", order := none, is_published := some true,
    created_at := 0, updated_at := none }

def dbW : DB :=
  { categories := [catGrill], menu_items := [itemKebab, itemAyran],
    settings := some settingsV3 }

def dbV5 : DB := { categories := [], menu_items := [], settings := some settingsV5 }

def dbEmpty : DB := { categories := [], menu_items := [], settings := none }

def dbGhost : DB :=
  { categories := [catGrill], menu_items := [itemGhost],
    settings := some settingsV3 }

/-! ### Claims -/

/-- C1: the claim says every successful mutating admin call on categories,
menu items or settings increments `data_version` by exactly 1, so N such
calls raise `readVersion()` by N.  The code violates this: `create_category`
and `delete_category` contain no `$inc` on `data_version` at all (every other
mutating handler does).  Starting at version 5, creating a category and then
deleting it leaves `readVersion()` at 5, where the claim requires 7. -/
theorem create_and_delete_category_do_not_bump :
    get_data_version dbV5 = 5 ∧
    get_data_version (create_category dbV5
      { name := "Grill", slug := "grill", image := "grill.jpg" } 0 "cat9").1 = 5 ∧
    get_data_version (delete_category
      (create_category dbV5
        { name := "Grill", slug := "grill", image := "grill.jpg" } 0 "cat9").1
      "cat9").1 = 5 ∧
    (delete_category
      (create_category dbV5
        { name := "Grill", slug := "grill", image := "grill.jpg" } 0 "cat9").1
      "cat9").2 = .ok () := by
  exact ⟨rfl, rfl, rfl, rfl⟩

/-- C2 counterexample: `readVersion()` is not monotonic over the public
interface, because `SettingsUpdate` exposes `data_version` itself: a
`PUT /api/settings` carrying `data_version = 1` against a database at
version 5 stores 1 and then bumps it, so the next `readVersion()` observes 2,
a decrease from 5. -/
theorem settings_put_lowers_data_version :
    get_data_version dbV5 = 5 ∧
    get_data_version (update_settings dbV5 { data_version := some 1 } 7).1 = 2 := by
  constructor <;> decide

/-- C2 (amended): `readVersion()` never decreases along any sequence of the
catalog/settings state-changing calls provided no `PUT /api/settings` payload
carries a non-null `data_version` field; a payload that does can set the
counter (plus one bump) to an arbitrary value, including a lower one.  All
remaining routes of the service never write the settings collection. -/
theorem data_version_monotone_without_override (db : DB) (ops : List ApiOp)
    (h : ∀ op ∈ ops, noVersionOverride op) :
    get_data_version db ≤ get_data_version (runOps db ops) := by
  induction ops generalizing db with
  | nil => exact le_refl _
  | cons op rest ih =>
      exact le_trans (stepDB_mono db op (h op (List.mem_cons_self op rest)))
        (ih (stepDB db op) (fun o ho => h o (List.mem_cons_of_mem op ho)))

theorem data_version_monotone_without_override_witness :
    get_data_version dbW ≤ get_data_version (runOps dbW
      [ApiOp.togglePublish "it1" 4,
       ApiOp.updateSettings { phone := some "+971 4 123 4567" } 5]) :=
  data_version_monotone_without_override dbW
    [ApiOp.togglePublish "it1" 4,
     ApiOp.updateSettings { phone := some "+971 4 123 4567" } 5]
    (by
      intro op hop
      rcases List.mem_cons.mp hop with h1 | hop
      · rw [h1]; trivial
      rcases List.mem_cons.mp hop with h2 | hop
      · rw [h2]; exact rfl
      cases hop)

/-- C4: the snapshot's `dataVersion` field and the cheap version probe are
the same read — `getSnapshot().dataVersion = readVersion()` on any one
database state — and both default to 1 when the settings document is absent
or carries no `data_version` field. -/
theorem public_data_version_agrees (db : DB) (now : Nat) :
    (get_public_data db now).dataVersion = get_data_version db ∧
    (db.settings = none →
      get_data_version db = 1 ∧ (get_public_data db now).dataVersion = 1) ∧
    (∀ s, db.settings = some s → s.data_version = none →
      get_data_version db = 1 ∧ (get_public_data db now).dataVersion = 1) := by
  refine ⟨rfl, ?_, ?_⟩
  · intro h
    unfold get_data_version get_public_data
    rw [h]
    exact ⟨rfl, rfl⟩
  · intro s hs hv
    unfold get_data_version get_public_data
    rw [hs]
    simp [hv]

theorem public_data_version_agrees_witness :
    (get_public_data dbEmpty 0).dataVersion = get_data_version dbEmpty ∧
    get_data_version dbEmpty = 1 :=
  ⟨(public_data_version_agrees dbEmpty 0).1,
   ((public_data_version_agrees dbEmpty 0).2.1 rfl).1⟩

/-- C5: an update carrying zero non-null fields is rejected with the
400 "No data to update" error for categories, menu items and settings alike
(state untouched), and a non-empty update addressed at an id matching no
category / menu item fails with 404 (state untouched). -/
theorem update_error_paths (db : DB) (id : String) (uc : CategoryUpdate)
    (um : MenuItemUpdate) (us : SettingsUpdate) (now : Nat) :
    (uc.isEmpty = true → update_category db id uc now = (db, .error .invalidArgument)) ∧
    (um.isEmpty = true → update_menu_item db id um now = (db, .error .invalidArgument)) ∧
    (us.isEmpty = true → update_settings db us now = (db, .error .invalidArgument)) ∧
    (uc.isEmpty = false → (∀ c ∈ db.categories, c.id ≠ id) →
      update_category db id uc now = (db, .error .notFound)) ∧
    (um.isEmpty = false → (∀ i ∈ db.menu_items, i.id ≠ id) →
      update_menu_item db id um now = (db, .error .notFound)) := by
  refine ⟨?_, ?_, ?_, ?_, ?_⟩
  · intro h; simp [update_category, h]
  · intro h; simp [update_menu_item, h]
  · intro h; simp [update_settings, h]
  · intro h hnone
    have hm : (db.categories.any fun d => (d.id = id : Bool)) = false := by
      simp only [List.any_eq_false, decide_eq_true_eq]
      exact hnone
    simp [update_category, h, hm]
  · intro h hnone
    have hm : (db.menu_items.any fun i => (i.id = id : Bool)) = false := by
      simp only [List.any_eq_false, decide_eq_true_eq]
      exact hnone
    simp [update_menu_item, h, hm]

theorem update_error_paths_witness :
    update_category dbW "zzz" {} 9 = (dbW, .error .invalidArgument) ∧
    update_menu_item dbW "zzz" { price := some 10 } 9 = (dbW, .error .notFound) :=
  ⟨(update_error_paths dbW "zzz" {} { price := some 10 } {} 9).1 rfl,
   (update_error_paths dbW "zzz" {} { price := some 10 } {} 9).2.2.2.2 rfl
     (by decide)⟩

/-- C10: deleting a category whose id matches nothing answers 404, but only
after the cascade has run — `delete_many({"category_id": id})` executes before
the existence check, so the referencing menu items are already gone in the
state the error leaves behind, while the categories collection is unchanged. -/
theorem delete_category_missing_id_not_atomic (db : DB) (cid : String)
    (h : ∀ c ∈ db.categories, c.id ≠ cid) :
    delete_category db cid =
      ({ db with menu_items :=
          db.menu_items.filter (fun i => !(i.category_id = cid : Bool)) },
       .error .notFound) := by
  have hany : (db.categories.any fun d => (d.id = cid : Bool)) = false := by
    simp only [List.any_eq_false, decide_eq_true_eq]
    exact h
  have herase : db.categories.eraseP (fun d => (d.id = cid : Bool)) = db.categories :=
    List.eraseP_eq_self_iff.mpr (by intro a ha; simp [h a ha])
  simp [delete_category, hany, herase]

theorem delete_category_missing_id_not_atomic_witness :
    delete_category dbGhost "ghost" =
      ({ dbGhost with menu_items :=
          dbGhost.menu_items.filter (fun i => !(i.category_id = "ghost" : Bool)) },
       .error .notFound) ∧
    (delete_category dbGhost "ghost").1.menu_items = [] :=
  ⟨delete_category_missing_id_not_atomic dbGhost "ghost" (by decide), by decide⟩

theorem find?_eraseP_of_nodup {α : Type} (idOf : α → String) (i : String) :
    ∀ l : List α, (l.map idOf).Nodup →
      (l.eraseP (fun d => (idOf d = i : Bool))).find?
        (fun d => (idOf d = i : Bool)) = none := by
  intro l
  induction l with
  | nil => intro _; rfl
  | cons a t ih =>
      intro h
      rw [List.map_cons, List.nodup_cons] at h
      by_cases ha : idOf a = i
      · rw [List.eraseP_cons_of_pos (by simp [ha])]
        rw [List.find?_eq_none]
        intro x hx hpx
        have hxi : idOf x = i := by simpa using hpx
        exact h.1 (by rw [ha, ← hxi]; exact List.mem_map_of_mem idOf hx)
      · rw [List.eraseP_cons_of_neg (by simp [ha])]
        rw [List.find?_cons_of_neg _ (by simp [ha])]
        exact ih h.2

/-- C3: deleting an existing category C succeeds, removes exactly the menu
items whose `category_id` is C (the cascade `delete_many` runs before the
category `delete_one`), leaves a state where the items listing filtered by
`category_id = C` is empty, and where fetching category C reports 404.
The side conditions are the store's `_id` uniqueness and a non-empty id
(Python's truthiness gate on the `category_id` listing filter). -/
theorem delete_category_cascade (db : DB) (C : String)
    (hnodup : (db.categories.map CategoryDoc.id).Nodup)
    (hC : C.isEmpty = false)
    (hex : ∃ c, c ∈ db.categories ∧ c.id = C) :
    (delete_category db C).2 = .ok () ∧
    (delete_category db C).1.menu_items
      = db.menu_items.filter (fun i => !(i.category_id = C : Bool)) ∧
    get_menu_items (delete_category db C).1 (some C) none = [] ∧
    get_category (delete_category db C).1 C = .error .notFound := by
  obtain ⟨c, hc, hcid⟩ := hex
  have hany : (db.categories.any fun d => (d.id = C : Bool)) = true :=
    List.any_eq_true.mpr ⟨c, hc, by simp [hcid]⟩
  have hitems : (delete_category db C).1.menu_items
      = db.menu_items.filter (fun i => !(i.category_id = C : Bool)) := by
    simp [delete_category, hany]
  have hcats : (delete_category db C).1.categories
      = db.categories.eraseP (fun d => (d.id = C : Bool)) := by
    simp [delete_category, hany]
  refine ⟨by simp [delete_category, hany], hitems, ?_, ?_⟩
  · unfold get_menu_items
    have hq : buildMenuQuery (some C) none
        = { category_id := some C, is_published_ne_false := false } := by
      simp [buildMenuQuery, truthyStr, truthyBool, hC]
    rw [hq, hitems, List.filter_filter]
    have hnil : db.menu_items.filter
        (fun a => matchesMenuQuery
          { category_id := some C, is_published_ne_false := false } a &&
          !(a.category_id = C : Bool)) = [] := by
      rw [List.filter_eq_nil_iff]
      intro a _ hcontra
      simp [matchesMenuQuery] at hcontra
    rw [hnil]
    rfl
  · unfold get_category
    rw [hcats, find?_eraseP_of_nodup CategoryDoc.id C db.categories hnodup]

theorem delete_category_cascade_witness :
    (delete_category dbW "cat1").2 = .ok () ∧
    get_menu_items (delete_category dbW "cat1").1 (some "cat1") none = [] ∧
    get_category (delete_category dbW "cat1").1 "cat1" = .error .notFound :=
  ⟨(delete_category_cascade dbW "cat1" (by decide) (by decide)
      ⟨catGrill, by simp [dbW], rfl⟩).1,
   (delete_category_cascade dbW "cat1" (by decide) (by decide)
      ⟨catGrill, by simp [dbW], rfl⟩).2.2.1,
   (delete_category_cascade dbW "cat1" (by decide) (by decide)
      ⟨catGrill, by simp [dbW], rfl⟩).2.2.2⟩

/-- C6: a successful menu-item update rewrites exactly the first document
matching the id — every other document and the categories collection are
untouched — and on that document only the non-null payload fields plus the
`updated_at` stamp change, while `id`, `created_at` and every field the
payload leaves null keep their stored value (and a supplied field receives
exactly the supplied value). -/
theorem update_menu_item_frame (db : DB) (pre post : List MenuItemDoc)
    (d : MenuItemDoc) (u : MenuItemUpdate) (now : Nat)
    (hsplit : db.menu_items = pre ++ d :: post)
    (hpre : ∀ x ∈ pre, x.id ≠ d.id)
    (hne : u.isEmpty = false) :
    ((update_menu_item db d.id u now).1.menu_items
      = pre ++ applyMenuItemUpdate d u now :: post) ∧
    ((update_menu_item db d.id u now).1.categories = db.categories) ∧
    (applyMenuItemUpdate d u now).id = d.id ∧
    (applyMenuItemUpdate d u now).created_at = d.created_at ∧
    (applyMenuItemUpdate d u now).updated_at = some now ∧
    (u.title = none → (applyMenuItemUpdate d u now).title = d.title) ∧
    (u.title_ar = none → (applyMenuItemUpdate d u now).title_ar = d.title_ar) ∧
    (u.description = none →
      (applyMenuItemUpdate d u now).description = d.description) ∧
    (u.description_ar = none →
      (applyMenuItemUpdate d u now).description_ar = d.description_ar) ∧
    (u.price = none → (applyMenuItemUpdate d u now).price = d.price) ∧
    (u.image = none → (applyMenuItemUpdate d u now).image = d.image) ∧
    (u.category_id = none →
      (applyMenuItemUpdate d u now).category_id = d.category_id) ∧
    (u.order = none → (applyMenuItemUpdate d u now).order = d.order) ∧
    (u.is_published = none →
      (applyMenuItemUpdate d u now).is_published = d.is_published) ∧
    (∀ v, u.title = some v → (applyMenuItemUpdate d u now).title = v) ∧
    (∀ v, u.title_ar = some v → (applyMenuItemUpdate d u now).title_ar = v) ∧
    (∀ v, u.description = some v →
      (applyMenuItemUpdate d u now).description = v) ∧
    (∀ v, u.description_ar = some v →
      (applyMenuItemUpdate d u now).description_ar = v) ∧
    (∀ v, u.price = some v → (applyMenuItemUpdate d u now).price = v) ∧
    (∀ v, u.image = some v → (applyMenuItemUpdate d u now).image = v) ∧
    (∀ v, u.category_id = some v →
      (applyMenuItemUpdate d u now).category_id = v) ∧
    (∀ v, u.order = some v → (applyMenuItemUpdate d u now).order = some v) ∧
    (∀ v, u.is_published = some v →
      (applyMenuItemUpdate d u now).is_published = some v) := by
  have hd : (fun i => (i.id = d.id : Bool)) d = true := by simp
  have hpre' : ∀ x ∈ pre, (fun i => (i.id = d.id : Bool)) x = false := by
    intro x hx
    simp [hpre x hx]
  have hany : (db.menu_items.any fun i => (i.id = d.id : Bool)) = true := by
    rw [hsplit]
    exact any_middle _ pre d post hd
  have hupd : updateFirstBy (fun i => (i.id = d.id : Bool))
      (fun i => applyMenuItemUpdate i u now) db.menu_items
      = pre ++ applyMenuItemUpdate d u now :: post := by
    rw [hsplit]
    exact updateFirstBy_append _ _ pre d post hpre' hd
  refine ⟨?_, ?_, rfl, rfl, rfl, ?_, ?_, ?_, ?_, ?_, ?_, ?_, ?_, ?_,
    ?_, ?_, ?_, ?_, ?_, ?_, ?_, ?_, ?_⟩
  · simp [update_menu_item, bumpDB, hne, hany, hupd]
  · simp [update_menu_item, bumpDB, hne, hany]
  all_goals
    first
    | (intro h; simp [applyMenuItemUpdate, setOpt, h])
    | (intro v h; simp [applyMenuItemUpdate, setOpt, h])

theorem update_menu_item_frame_witness :
    ((update_menu_item dbW itemKebab.id { price := some 10 } 9).1.menu_items
      = [] ++ applyMenuItemUpdate itemKebab { price := some 10 } 9 :: [itemAyran]) ∧
    (update_menu_item dbW itemKebab.id { price := some 10 } 9).1.categories
      = dbW.categories :=
  ⟨(update_menu_item_frame dbW [] [itemAyran] itemKebab { price := some 10 } 9
      rfl (by simp) rfl).1,
   (update_menu_item_frame dbW [] [itemAyran] itemKebab { price := some 10 } 9
      rfl (by simp) rfl).2.1⟩


theorem toggle_step (db : DB) (pre post : List MenuItemDoc) (d : MenuItemDoc)
    (t : Nat) (hsplit : db.menu_items = pre ++ d :: post)
    (hpre : ∀ x ∈ pre, x.id ≠ d.id) :
    toggle_publish_menu_item db d.id t
      = (bumpDB { db with menu_items := pre ++
          { d with is_published := some (!(d.is_published.getD true)),
                   updated_at := some t } :: post },
         .ok (!(d.is_published.getD true))) := by
  have hd : (fun i => (i.id = d.id : Bool)) d = true := by simp
  have hpre' : ∀ x ∈ pre, (fun i => (i.id = d.id : Bool)) x = false := by
    intro x hx
    simp [hpre x hx]
  have hfind : db.menu_items.find? (fun i => (i.id = d.id : Bool)) = some d := by
    rw [hsplit]
    exact find?_middle _ pre d post hpre' hd
  have hupd : updateFirstBy (fun i => (i.id = d.id : Bool))
      (fun i => { i with is_published := some (!(d.is_published.getD true)),
                         updated_at := some t }) db.menu_items
      = pre ++ { d with is_published := some (!(d.is_published.getD true)),
                        updated_at := some t } :: post := by
    rw [hsplit]
    exact updateFirstBy_append _ _ pre d post hpre' hd
  simp [toggle_publish_menu_item, hfind, hupd]

/-- C7: on an item whose `is_published` field is absent (or stored `True`),
`toggle-publish` reads `item.get("is_published", True)` as `True`, so the
first call stores `False` and answers `false` — which removes the item from a
`published_only=true` listing — and a second call stores `True` and answers
`true`, putting the item back into the listing. -/
theorem toggle_publish_round_trip (db : DB) (pre post : List MenuItemDoc)
    (d : MenuItemDoc) (t1 t2 : Nat)
    (hsplit : db.menu_items = pre ++ d :: post)
    (hpre : ∀ x ∈ pre, x.id ≠ d.id)
    (hp : d.is_published = none ∨ d.is_published = some true) :
    (toggle_publish_menu_item db d.id t1).2 = .ok false ∧
    ((toggle_publish_menu_item db d.id t1).1.menu_items
      = pre ++ { d with is_published := some false, updated_at := some t1 } :: post) ∧
    ({ d with is_published := some false, updated_at := some t1 }
      ∉ get_menu_items (toggle_publish_menu_item db d.id t1).1 none (some true)) ∧
    (toggle_publish_menu_item
      (toggle_publish_menu_item db d.id t1).1 d.id t2).2 = .ok true ∧
    ((toggle_publish_menu_item
      (toggle_publish_menu_item db d.id t1).1 d.id t2).1.menu_items
      = pre ++ { d with is_published := some true, updated_at := some t2 } :: post) ∧
    ({ d with is_published := some true, updated_at := some t2 }
      ∈ get_menu_items
        (toggle_publish_menu_item
          (toggle_publish_menu_item db d.id t1).1 d.id t2).1 none (some true)) := by
  have hstat : d.is_published.getD true = true := by
    rcases hp with h | h <;> simp [h]
  have hres1 := toggle_step db pre post d t1 hsplit hpre
  rw [hstat] at hres1
  have hmenu1 : (toggle_publish_menu_item db d.id t1).1.menu_items
      = pre ++ { d with is_published := some false, updated_at := some t1 } :: post := by
    rw [hres1]
    rfl
  have hres2 := toggle_step (toggle_publish_menu_item db d.id t1).1 pre post
    { d with is_published := some false, updated_at := some t1 } t2 hmenu1
    (fun x hx => hpre x hx)
  have hres2' : toggle_publish_menu_item (toggle_publish_menu_item db d.id t1).1 d.id t2
      = (bumpDB { (toggle_publish_menu_item db d.id t1).1 with menu_items := pre ++
          { d with is_published := some true, updated_at := some t2 } :: post },
         .ok true) := hres2
  have hmenu2 : (toggle_publish_menu_item
      (toggle_publish_menu_item db d.id t1).1 d.id t2).1.menu_items
      = pre ++ { d with is_published := some true, updated_at := some t2 } :: post := by
    rw [hres2']
    rfl
  refine ⟨by rw [hres1]; rfl, hmenu1, ?_, by rw [hres2'], hmenu2, ?_⟩
  · intro hmem
    unfold get_menu_items at hmem
    rw [List.mem_insertionSort] at hmem
    have hq := (List.mem_filter.mp hmem).2
    simp [matchesMenuQuery, buildMenuQuery, truthyStr, truthyBool] at hq
  · unfold get_menu_items
    rw [List.mem_insertionSort]
    refine List.mem_filter.mpr ⟨?_, ?_⟩
    · rw [hmenu2]
      simp
    · simp [matchesMenuQuery, buildMenuQuery, truthyStr, truthyBool]

theorem toggle_publish_round_trip_witness :
    (toggle_publish_menu_item dbW itemKebab.id 4).2 = .ok false ∧
    (toggle_publish_menu_item
      (toggle_publish_menu_item dbW itemKebab.id 4).1 itemKebab.id 5).2 = .ok true :=
  ⟨(toggle_publish_round_trip dbW [] [itemAyran] itemKebab 4 5 rfl (by simp)
      (Or.inl rfl)).1,
   (toggle_publish_round_trip dbW [] [itemAyran] itemKebab 4 5 rfl (by simp)
      (Or.inl rfl)).2.2.2.1⟩

/-- The category restriction of the listing, as the spec words it: when a
`category_id` is supplied the item must carry it, otherwise no restriction. -/
def catFilter (cid : Option String) (i : MenuItemDoc) : Bool :=
  match cid with
  | some c => i.category_id = c
  | none => true

/-- C8: `GET /api/menu-items?published_only=true` returns exactly (as a
multiset) the stored items whose `is_published` is not explicitly `false`
(absent and `true` both pass), restricted to the requested `category_id`
when one is supplied (as a non-empty string — Python truthiness), and the
result is sorted ascending by the `order` key (a missing `order` sorting
first, as Mongo sorts a missing field before numbers). -/
theorem published_only_listing (db : DB) (cid : Option String)
    (hcid : cid = none ∨ ∃ c, cid = some c ∧ c.isEmpty = false) :
    List.Perm (get_menu_items db cid (some true))
      (db.menu_items.filter (fun i =>
        catFilter cid i && !(i.is_published = some false : Bool))) ∧
    List.Sorted itemLe (get_menu_items db cid (some true)) ∧
    (∀ i, i ∈ get_menu_items db cid (some true) ↔
      (i ∈ db.menu_items ∧ (∀ c, cid = some c → i.category_id = c) ∧
        i.is_published ≠ some false)) := by
  have hq : buildMenuQuery cid (some true)
      = { category_id := cid, is_published_ne_false := true } := by
    rcases hcid with h | ⟨c, h, hc⟩ <;> subst h
    · rfl
    · simp [buildMenuQuery, truthyStr, truthyBool, hc]
  have hpred : ∀ i ∈ db.menu_items,
      matchesMenuQuery (buildMenuQuery cid (some true)) i
      = (catFilter cid i && !(i.is_published = some false : Bool)) := by
    intro i _
    rw [hq]
    cases cid <;> simp [matchesMenuQuery, catFilter]
  have hfilter : db.menu_items.filter
        (matchesMenuQuery (buildMenuQuery cid (some true)))
      = db.menu_items.filter (fun i =>
        catFilter cid i && !(i.is_published = some false : Bool)) :=
    List.filter_congr hpred
  refine ⟨?_, List.sorted_insertionSort itemLe _, ?_⟩
  · unfold get_menu_items
    rw [hfilter]
    exact List.perm_insertionSort _ _
  · intro i
    unfold get_menu_items
    rw [List.mem_insertionSort, hfilter, List.mem_filter]
    constructor
    · rintro ⟨hmem, hcond⟩
      rw [Bool.and_eq_true] at hcond
      refine ⟨hmem, ?_, ?_⟩
      · intro c hceq
        have := hcond.1
        rw [hceq] at this
        simpa [catFilter] using this
      · simpa using hcond.2
    · rintro ⟨hmem, hcat, hpub⟩
      refine ⟨hmem, ?_⟩
      rw [Bool.and_eq_true]
      refine ⟨?_, by simpa using hpub⟩
      cases hc : cid with
      | none => simp [catFilter]
      | some c => simpa [catFilter] using hcat c hc

theorem published_only_listing_witness :
    List.Sorted itemLe (get_menu_items dbW (some "cat1") (some true)) ∧
    (itemAyran ∈ get_menu_items dbW (some "cat1") (some true)) :=
  ⟨(published_only_listing dbW (some "cat1")
      (Or.inr ⟨"cat1", rfl, rfl⟩)).2.1,
   ((published_only_listing dbW (some "cat1")
      (Or.inr ⟨"cat1", rfl, rfl⟩)).2.2 itemAyran).mpr
     ⟨by simp [dbW], by intro c hc; cases hc; rfl, by decide⟩⟩

/-- C9: a reorder batch on categories or menu items stores each entry's
`order` value on the (unique) entity carrying that id, leaves every entity
not named in the batch entirely unchanged, silently skips batch ids that
match nothing (no error — the endpoints are total), and performs exactly one
data-version bump for the whole batch (in particular, a stored version v
becomes exactly v+1, whatever the batch length). -/
theorem reorder_batch_semantics (db : DB) (b : List ReorderEntry)
    (hcats : (db.categories.map CategoryDoc.id).Nodup)
    (hitems : (db.menu_items.map MenuItemDoc.id).Nodup)
    (hb : (b.map ReorderEntry.id).Nodup) :
    (∀ e ∈ b, ∀ d ∈ db.categories, d.id = e.id →
      { d with order := e.order } ∈ (reorder_categories db b).categories) ∧
    (∀ d ∈ db.categories, (∀ e ∈ b, d.id ≠ e.id) →
      d ∈ (reorder_categories db b).categories) ∧
    ((∀ e ∈ b, ∀ d ∈ db.categories, d.id ≠ e.id) →
      (reorder_categories db b).categories = db.categories) ∧
    ((reorder_categories db b).settings = some (bumpSettings db.settings)) ∧
    (∀ e ∈ b, ∀ d ∈ db.menu_items, d.id = e.id →
      { d with order := some e.order } ∈ (reorder_menu_items db b).menu_items) ∧
    (∀ d ∈ db.menu_items, (∀ e ∈ b, d.id ≠ e.id) →
      d ∈ (reorder_menu_items db b).menu_items) ∧
    ((∀ e ∈ b, ∀ d ∈ db.menu_items, d.id ≠ e.id) →
      (reorder_menu_items db b).menu_items = db.menu_items) ∧
    ((reorder_menu_items db b).settings = some (bumpSettings db.settings)) ∧
    (∀ s v, db.settings = some s → s.data_version = some v →
      get_data_version (reorder_categories db b) = v + 1 ∧
      get_data_version (reorder_menu_items db b) = v + 1) := by
  have hmapc : (reorder_categories db b).categories
      = db.categories.map
          (applyBatch CategoryDoc.id (fun o d => { d with order := o }) b) :=
    reorderFold_eq_map CategoryDoc.id (fun o d => { d with order := o })
      (fun _ _ => rfl) b db.categories hcats
  have hmapi : (reorder_menu_items db b).menu_items
      = db.menu_items.map
          (applyBatch MenuItemDoc.id (fun o d => { d with order := some o }) b) :=
    reorderFold_eq_map MenuItemDoc.id (fun o d => { d with order := some o })
      (fun _ _ => rfl) b db.menu_items hitems
  have hsetc : (reorder_categories db b).settings
      = some (bumpSettings db.settings) := rfl
  have hseti : (reorder_menu_items db b).settings
      = some (bumpSettings db.settings) := rfl
  have hver : ∀ X : DB, X.settings = some (bumpSettings db.settings) →
      ∀ s v, db.settings = some s → s.data_version = some v →
      get_data_version X = v + 1 := by
    intro X hX s v hs hv
    rw [hs] at hX
    unfold get_data_version
    rw [hX]
    simp [bumpSettings, hv]
  refine ⟨?_, ?_, ?_, hsetc, ?_, ?_, ?_, hseti,
    fun s v hs hv => ⟨hver _ hsetc s v hs hv, hver _ hseti s v hs hv⟩⟩
  · intro e he d hd hde
    rw [hmapc]
    exact List.mem_map.mpr ⟨d, hd,
      applyBatch_hit CategoryDoc.id (fun o x => { x with order := o })
        (fun _ _ => rfl) b d e he hb hde⟩
  · intro d hd hskip
    rw [hmapc]
    exact List.mem_map.mpr ⟨d, hd, applyBatch_skip CategoryDoc.id _ b d hskip⟩
  · intro hnone
    rw [hmapc]
    have h1 : db.categories.map
        (applyBatch CategoryDoc.id (fun o d => { d with order := o }) b)
        = db.categories.map (fun d => d) :=
      List.map_congr_left (fun d hd =>
        applyBatch_skip CategoryDoc.id _ b d (fun e he => hnone e he d hd))
    rw [h1, List.map_id']
  · intro e he d hd hde
    rw [hmapi]
    exact List.mem_map.mpr ⟨d, hd,
      applyBatch_hit MenuItemDoc.id (fun o x => { x with order := some o })
        (fun _ _ => rfl) b d e he hb hde⟩
  · intro d hd hskip
    rw [hmapi]
    exact List.mem_map.mpr ⟨d, hd, applyBatch_skip MenuItemDoc.id _ b d hskip⟩
  · intro hnone
    rw [hmapi]
    have h1 : db.menu_items.map
        (applyBatch MenuItemDoc.id (fun o d => { d with order := some o }) b)
        = db.menu_items.map (fun d => d) :=
      List.map_congr_left (fun d hd =>
        applyBatch_skip MenuItemDoc.id _ b d (fun e he => hnone e he d hd))
    rw [h1, List.map_id']

theorem reorder_batch_semantics_witness :
    ({ catGrill with order := 7 }
      ∈ (reorder_categories dbW [⟨"cat1", 7⟩, ⟨"nope", 9⟩]).categories) ∧
    (itemAyran ∈ (reorder_menu_items dbW [⟨"it1", 3⟩]).menu_items) ∧
    get_data_version (reorder_categories dbW [⟨"cat1", 7⟩, ⟨"nope", 9⟩]) = 4 :=
  ⟨(reorder_batch_semantics dbW [⟨"cat1", 7⟩, ⟨"nope", 9⟩]
      (by decide) (by decide) (by decide)).1
      ⟨"cat1", 7⟩ (by simp) catGrill (by simp [dbW]) rfl,
   (reorder_batch_semantics dbW [⟨"it1", 3⟩]
      (by decide) (by decide) (by decide)).2.2.2.2.2.1
      itemAyran (by simp [dbW]) (by decide),
   ((reorder_batch_semantics dbW [⟨"cat1", 7⟩, ⟨"nope", 9⟩]
      (by decide) (by decide) (by decide)).2.2.2.2.2.2.2.2
      settingsV3 3 rfl rfl).1⟩
